import Mathlib

/-!
Verification of the SeedUp command-line entry point (`src/main.py`).

The entry point is pure glue: it parses arguments, dispatches to four
handlers (`handle_download`, `handle_upload`, `handle_status`,
`handle_clear`) and maps collaborator results and exceptions to process
exit codes.  We embed the handlers shallowly: every collaborator call is
a field of an environment record `Env`, every observable side effect
(console print, log line, collaborator invocation, drive mount) is
recorded in an event trace, and Python exceptions are modelled with
`Except PyExc`.  `KeyboardInterrupt` derives from `BaseException` in
Python and is therefore not caught by `except Exception`; the model
keeps it as a distinguished constructor that the handler-level catch
clauses let through.
-/

namespace SeedUp

/-- Python exceptions as seen by this layer: `KeyboardInterrupt` (not an
`Exception` subclass, so `except Exception` does not catch it) and an
ordinary exception carrying `str(e)`. -/
inductive PyExc where
  | keyboardInterrupt : PyExc
  | exc : String → PyExc
deriving DecidableEq

/-- The Python value found under the `failed` key of the upload result
mapping: either `None` or a list of failed items. -/
inductive PyVal where
  | pyNone : PyVal
  | pyList : List String → PyVal
deriving DecidableEq

/-- Python truthiness: `None` and the empty list are falsy, a non-empty
list is truthy. -/
def PyVal.truthy : PyVal → Bool
  | PyVal.pyNone => false
  | PyVal.pyList xs => !xs.isEmpty

/-- `len(...)` of the value; only evaluated on lists by the code (the
truthiness guard rules out `None` before `len` is taken). -/
def PyVal.len : PyVal → Nat
  | PyVal.pyNone => 0
  | PyVal.pyList xs => xs.length

/-- The mapping returned by the upload collaborator.  `failed = none`
models a mapping with no `failed` key at all. -/
structure UploadResult where
  failed : Option PyVal
deriving DecidableEq

/-- `results.get('failed')`: defaulting dictionary lookup, yielding
`None` when the key is absent (`main.py` lines 142 and 178). -/
def UploadResult.getFailed (r : UploadResult) : PyVal :=
  r.failed.getD PyVal.pyNone

/-- Observable effects of one invocation, in program order. -/
inductive Event where
  | print : String → Event
  | logError : String → Event
  | logErrorExcInfo : String → Event
  | logWarning : String → Event
  | logInfo : String → Event
  | mountHelper : Event
  | callDownload : String → String → Bool → Event
  | callGetUploader : Event
  | callUpload : String → String → Bool → Event
  | callGetStatus : Event
  | callClearSession : Event
deriving DecidableEq

/-- Is the event an invocation of the download collaborator? -/
def Event.isCallDownload : Event → Bool
  | Event.callDownload _ _ _ => true
  | _ => false

/-- Is the event an invocation of the upload collaborator? -/
def Event.isCallUpload : Event → Bool
  | Event.callUpload _ _ _ => true
  | _ => false

/-- Is the event an invocation of `get_uploader`? -/
def Event.isCallGetUploader : Event → Bool
  | Event.callGetUploader => true
  | _ => false

/-- The external collaborators and host facts the entry point depends
on.  `download_torrent` returns the downloaded path (`none` / empty
string are the falsy failure returns) or raises; `uploader_import_error
= some m` means `from gdrive_uploader import upload_to_google_drive`
raises `ImportError(m)`; `upload_to_google_drive` returns the result
mapping or raises; `get_download_status` and `clear_session` are the
session-query collaborators; `path_exists` is `os.path.exists`. -/
structure Env where
  download_torrent : String → String → Bool → Except PyExc (Option String)
  uploader_import_error : Option String
  upload_to_google_drive : String → String → Bool → Except PyExc UploadResult
  get_download_status : Bool
  clear_session : Bool
  path_exists : String → Bool

/-- Parsed arguments of the `download` subcommand.  `folder_id` is
`none` when `-f` was not given (argparse default `None`). -/
structure DownloadArgs where
  torrent : String
  destination : String
  no_resume : Bool
  upload : Bool
  folder_id : Option String
  no_skip : Bool

/-- Parsed arguments of the `upload` subcommand (`-p` and `-f` are
required by the parser). -/
structure UploadArgs where
  path : String
  folder_id : String
  no_skip : Bool

/-- Python truthiness test `not x` for an optional string: `None` and
the empty string are falsy. -/
def strOptFalsy : Option String → Bool
  | Option.none => true
  | Option.some s => s.isEmpty

theorem strOptFalsy_none : strOptFalsy Option.none = true := rfl

theorem strOptFalsy_some (s : String) : strOptFalsy (Option.some s) = s.isEmpty := rfl

/-- `"=" * 60`. -/
def sepLine : String := String.mk (List.replicate 60 '=')

/-- `get_uploader` (`main.py` lines 40-53): attempts the dynamic import;
on `ImportError` logs, prints installation instructions, and re-raises
the exception. -/
def get_uploader (env : Env) : List Event × Except PyExc Unit :=
  match env.uploader_import_error with
  | Option.none => ([Event.callGetUploader], Except.ok ())
  | Option.some m =>
      ([Event.callGetUploader,
        Event.logError ("Failed to import uploader: " ++ m),
        Event.print ("\n" ++ sepLine),
        Event.print "ERROR: Failed to import Google Drive uploader",
        Event.print sepLine,
        Event.print "Please install required packages:",
        Event.print "  pip install google-auth-oauthlib google-auth-httplib2 google-api-python-client",
        Event.print sepLine],
       Except.error (PyExc.exc m))

/-- `handle_download` (`main.py` lines 98-152). -/
def handle_download (env : Env) (a : DownloadArgs) : List Event × Except PyExc Nat :=
  let ev := [Event.print sepLine, Event.print "TORRENT DOWNLOADER", Event.print sepLine]
  let ev := ev ++ (if a.destination.startsWith "/content/drive" then [Event.mountHelper] else [])
  if a.upload && strOptFalsy a.folder_id then
    (ev ++ [Event.logError "--folder-id is required when using --upload"], Except.ok 1)
  else
    let ev := ev ++ [Event.logInfo ("Starting download: " ++ a.torrent),
                     Event.callDownload a.torrent a.destination (!a.no_resume)]
    match env.download_torrent a.torrent a.destination (!a.no_resume) with
    | Except.error e => (ev, Except.error e)
    | Except.ok dp =>
      if strOptFalsy dp then
        (ev ++ [Event.logError "Download failed or cancelled"], Except.ok 1)
      else
        let p := dp.getD ""
        let ev := ev ++ [Event.logInfo ("Download completed: " ++ p)]
        if a.upload then
          let ev := ev ++ [Event.mountHelper,
                           Event.print ("\n" ++ sepLine),
                           Event.print "UPLOADING TO GOOGLE DRIVE",
                           Event.print sepLine]
          match get_uploader env with
          | (gev, Except.error PyExc.keyboardInterrupt) =>
              (ev ++ gev, Except.error PyExc.keyboardInterrupt)
          | (gev, Except.error (PyExc.exc m)) =>
              (ev ++ gev ++ [Event.logError ("Upload failed: " ++ m)], Except.ok 1)
          | (gev, Except.ok ()) =>
            let fid := a.folder_id.getD ""
            let ev := ev ++ gev ++ [Event.callUpload p fid (!a.no_skip)]
            match env.upload_to_google_drive p fid (!a.no_skip) with
            | Except.error PyExc.keyboardInterrupt =>
                (ev, Except.error PyExc.keyboardInterrupt)
            | Except.error (PyExc.exc m) =>
                (ev ++ [Event.logError ("Upload failed: " ++ m)], Except.ok 1)
            | Except.ok results =>
              if (UploadResult.getFailed results).truthy then
                (ev ++ [Event.logWarning
                          ("Some files failed (" ++ toString (UploadResult.getFailed results).len ++ ")")],
                 Except.ok 1)
              else
                (ev ++ [Event.logInfo "Upload completed successfully!"], Except.ok 0)
        else
          (ev, Except.ok 0)

/-- `handle_upload` (`main.py` lines 158-187).  Note the source calls
`ensure_drive_mounted()` (line 163) before the `os.path.exists` check
(line 165). -/
def handle_upload (env : Env) (a : UploadArgs) : List Event × Except PyExc Nat :=
  let ev := [Event.print sepLine, Event.print "GOOGLE DRIVE UPLOADER", Event.print sepLine,
             Event.mountHelper]
  if !env.path_exists a.path then
    (ev ++ [Event.logError ("Path does not exist: " ++ a.path)], Except.ok 1)
  else
    match get_uploader env with
    | (gev, Except.error PyExc.keyboardInterrupt) =>
        (ev ++ gev, Except.error PyExc.keyboardInterrupt)
    | (gev, Except.error (PyExc.exc m)) =>
        (ev ++ gev ++ [Event.logError ("Upload failed: " ++ m)], Except.ok 1)
    | (gev, Except.ok ()) =>
      let ev := ev ++ gev ++ [Event.callUpload a.path a.folder_id (!a.no_skip)]
      match env.upload_to_google_drive a.path a.folder_id (!a.no_skip) with
      | Except.error PyExc.keyboardInterrupt =>
          (ev, Except.error PyExc.keyboardInterrupt)
      | Except.error (PyExc.exc m) =>
          (ev ++ [Event.logError ("Upload failed: " ++ m)], Except.ok 1)
      | Except.ok results =>
        if (UploadResult.getFailed results).truthy then
          (ev ++ [Event.logWarning
                    ("Some files failed (" ++ toString (UploadResult.getFailed results).len ++ ")")],
           Except.ok 1)
        else
          (ev ++ [Event.logInfo "Upload completed successfully!"], Except.ok 0)

/-- `handle_status` (`main.py` lines 193-198). -/
def handle_status (env : Env) : List Event × Except PyExc Nat :=
  ([Event.callGetStatus,
    Event.print (if env.get_download_status then "✓ Found paused download session"
                 else "✗ No paused download session found")],
   Except.ok 0)

/-- `handle_clear` (`main.py` lines 204-210). -/
def handle_clear (env : Env) : List Event × Except PyExc Nat :=
  if env.clear_session then
    ([Event.callClearSession, Event.print "✓ Download session cleared"], Except.ok 0)
  else
    ([Event.callClearSession, Event.print "✗ Failed to clear session"], Except.ok 1)

/-- A parsed command.  Argparse rejects unknown subcommands before the
dispatcher runs, so the four known commands are the only values. -/
inductive Command where
  | download : DownloadArgs → Command
  | upload : UploadArgs → Command
  | status : Command
  | clear : Command

/-- The dispatch table inside `main` (`main.py` lines 224-231). -/
def dispatch (env : Env) : Command → List Event × Except PyExc Nat
  | Command.download a => handle_download env a
  | Command.upload a => handle_upload env a
  | Command.status => handle_status env
  | Command.clear => handle_clear env

/-- `main` (`main.py` lines 216-241): dispatches and converts escaping
exceptions to exit codes — `KeyboardInterrupt` to 130 with a friendly
notice, anything else to 1 with `exc_info=True` logging. -/
def main (env : Env) (cmd : Option Command) : List Event × Nat :=
  match cmd with
  | Option.none => ([Event.print "Error: No command specified\n"], 1)
  | Option.some c =>
    match (dispatch env c).2 with
    | Except.ok code => ((dispatch env c).1, code)
    | Except.error PyExc.keyboardInterrupt =>
        ((dispatch env c).1 ++ [Event.print "\nOperation cancelled by user"], 130)
    | Except.error (PyExc.exc m) =>
        ((dispatch env c).1 ++ [Event.logErrorExcInfo ("Operation failed: " ++ m)], 1)

/-- C1: `download` with the `--upload` flag and no `--folder-id` logs an
error and returns exit code 1 before calling any collaborator; neither
the download collaborator nor the upload collaborator is invoked. -/
theorem download_upload_without_folder_id_fails_fast
    (env : Env) (a : DownloadArgs)
    (hu : a.upload = true) (hf : a.folder_id = Option.none) :
    (handle_download env a).2 = Except.ok 1 ∧
    Event.logError "--folder-id is required when using --upload" ∈ (handle_download env a).1 ∧
    ∀ e ∈ (handle_download env a).1, e.isCallDownload = false ∧ e.isCallUpload = false := by
  cases h : a.destination.startsWith "/content/drive" <;>
    simp [handle_download, hu, hf, h, strOptFalsy, Event.isCallDownload, Event.isCallUpload]

/-- Shared concrete argument record for `download --upload` with no
folder identifier. -/
def dlArgsNoFolder : DownloadArgs :=
  { torrent := "magnet:?xt=abc", destination := "/tmp/out", no_resume := false,
    upload := true, folder_id := Option.none, no_skip := false }

/-- Happy-path environment: download succeeds, uploader imports, upload
reports an empty `failed` list, both session collaborators succeed. -/
def envOk : Env :=
  { download_torrent := fun _ _ _ => Except.ok (Option.some "/tmp/out/file.iso"),
    uploader_import_error := Option.none,
    upload_to_google_drive := fun _ _ _ => Except.ok ⟨Option.some (PyVal.pyList [])⟩,
    get_download_status := true,
    clear_session := true,
    path_exists := fun _ => true }

theorem download_upload_without_folder_id_fails_fast_witness :
    (handle_download envOk dlArgsNoFolder).2 = Except.ok 1 ∧
    Event.logError "--folder-id is required when using --upload" ∈
      (handle_download envOk dlArgsNoFolder).1 ∧
    ∀ e ∈ (handle_download envOk dlArgsNoFolder).1,
      e.isCallDownload = false ∧ e.isCallUpload = false :=
  download_upload_without_folder_id_fails_fast envOk dlArgsNoFolder rfl rfl

/-- C2: when the download collaborator returns an empty/falsy value, the
download handler logs an error and returns exit code 1, and the upload
collaborator is never called even when `--upload` was set. -/
theorem download_falsy_result_fails_without_upload
    (env : Env) (a : DownloadArgs) (dp : Option String)
    (hd : env.download_torrent a.torrent a.destination (!a.no_resume) = Except.ok dp)
    (hf : strOptFalsy dp = true) :
    (handle_download env a).2 = Except.ok 1 ∧
    (∃ m, Event.logError m ∈ (handle_download env a).1) ∧
    ∀ e ∈ (handle_download env a).1, e.isCallUpload = false := by
  cases h1 : a.destination.startsWith "/content/drive" <;>
  cases h2 : a.upload && strOptFalsy a.folder_id <;>
    simp [handle_download, h1, h2, hd, hf, Event.isCallUpload]

/-- Environment where the download collaborator reports failure with a
falsy (`None`) return. -/
def envDownFail : Env :=
  { envOk with download_torrent := fun _ _ _ => Except.ok Option.none }

/-- Concrete `download --upload -f abc123` argument record. -/
def dlArgsFull : DownloadArgs :=
  { torrent := "magnet:?xt=abc", destination := "/tmp/out", no_resume := false,
    upload := true, folder_id := Option.some "abc123", no_skip := false }

theorem download_falsy_result_fails_without_upload_witness :
    (handle_download envDownFail dlArgsFull).2 = Except.ok 1 ∧
    (∃ m, Event.logError m ∈ (handle_download envDownFail dlArgsFull).1) ∧
    ∀ e ∈ (handle_download envDownFail dlArgsFull).1, e.isCallUpload = false :=
  download_falsy_result_fails_without_upload envDownFail dlArgsFull Option.none rfl rfl

/-- C3: whenever the upload collaborator is called and returns a result
mapping, both handlers return exit code 1 with a warning log when the
mapping has a non-empty `failed` list, and exit code 0 with a success
log otherwise, regardless of how many items succeeded. -/
theorem upload_failed_list_decides_exit
    (env : Env) (ua : UploadArgs) (da : DownloadArgs) (p : String) (r : UploadResult) :
    ((env.path_exists ua.path = true ∧ env.uploader_import_error = Option.none ∧
      env.upload_to_google_drive ua.path ua.folder_id (!ua.no_skip) = Except.ok r) →
      ((handle_upload env ua).2 =
          Except.ok (if (UploadResult.getFailed r).truthy then 1 else 0) ∧
       ((UploadResult.getFailed r).truthy = true →
          Event.logWarning ("Some files failed (" ++ toString (UploadResult.getFailed r).len ++ ")")
            ∈ (handle_upload env ua).1) ∧
       ((UploadResult.getFailed r).truthy = false →
          Event.logInfo "Upload completed successfully!" ∈ (handle_upload env ua).1)))
    ∧
    ((da.upload = true ∧ strOptFalsy da.folder_id = false ∧
      env.download_torrent da.torrent da.destination (!da.no_resume) =
        Except.ok (Option.some p) ∧
      p.isEmpty = false ∧ env.uploader_import_error = Option.none ∧
      env.upload_to_google_drive p (da.folder_id.getD "") (!da.no_skip) = Except.ok r) →
      ((handle_download env da).2 =
          Except.ok (if (UploadResult.getFailed r).truthy then 1 else 0) ∧
       ((UploadResult.getFailed r).truthy = true →
          Event.logWarning ("Some files failed (" ++ toString (UploadResult.getFailed r).len ++ ")")
            ∈ (handle_download env da).1) ∧
       ((UploadResult.getFailed r).truthy = false →
          Event.logInfo "Upload completed successfully!" ∈ (handle_download env da).1))) := by
  constructor
  · rintro ⟨h1, h2, h3⟩
    cases ht : (UploadResult.getFailed r).truthy <;>
      simp [handle_upload, get_uploader, h1, h2, h3, ht]
  · rintro ⟨h1, h2, h3, h4, h5, h6⟩
    cases hs : da.destination.startsWith "/content/drive" <;>
    cases ht : (UploadResult.getFailed r).truthy <;>
      simp [handle_download, get_uploader, h1, h2, h3, h4, h5, h6, ht, hs, strOptFalsy_some]

/-- Concrete `upload -p /tmp/out -f abc123` argument record. -/
def upArgsOk : UploadArgs :=
  { path := "/tmp/out", folder_id := "abc123", no_skip := false }

theorem upload_failed_list_decides_exit_witness :
    (handle_upload envOk upArgsOk).2 = Except.ok 0 ∧
    (handle_download envOk dlArgsFull).2 = Except.ok 0 := by
  have h := upload_failed_list_decides_exit envOk upArgsOk dlArgsFull "/tmp/out/file.iso"
      ⟨Option.some (PyVal.pyList [])⟩
  refine ⟨?_, ?_⟩
  · have h1 := (h.1 ⟨rfl, rfl, rfl⟩).1
    simpa [UploadResult.getFailed, PyVal.truthy] using h1
  · have h2 := (h.2 ⟨rfl, rfl, rfl, rfl, rfl, rfl⟩).1
    simpa [UploadResult.getFailed, PyVal.truthy] using h2

/-- C4: every `Exception` raised by the upload collaborator — including
an `ImportError` from the dynamic uploader import — is caught inside the
handler (download or upload), logged, and converted to exit code 1;
the handler result is an exit code, not a propagating exception. -/
theorem upload_exception_contained
    (env : Env) (ua : UploadArgs) (da : DownloadArgs) (p m : String) :
    ((env.path_exists ua.path = true ∧ env.uploader_import_error = Option.some m) →
      ((handle_upload env ua).2 = Except.ok 1 ∧
       Event.logError ("Upload failed: " ++ m) ∈ (handle_upload env ua).1))
    ∧
    ((env.path_exists ua.path = true ∧ env.uploader_import_error = Option.none ∧
      env.upload_to_google_drive ua.path ua.folder_id (!ua.no_skip) =
        Except.error (PyExc.exc m)) →
      ((handle_upload env ua).2 = Except.ok 1 ∧
       Event.logError ("Upload failed: " ++ m) ∈ (handle_upload env ua).1))
    ∧
    ((da.upload = true ∧ strOptFalsy da.folder_id = false ∧
      env.download_torrent da.torrent da.destination (!da.no_resume) =
        Except.ok (Option.some p) ∧
      p.isEmpty = false ∧ env.uploader_import_error = Option.some m) →
      ((handle_download env da).2 = Except.ok 1 ∧
       Event.logError ("Upload failed: " ++ m) ∈ (handle_download env da).1))
    ∧
    ((da.upload = true ∧ strOptFalsy da.folder_id = false ∧
      env.download_torrent da.torrent da.destination (!da.no_resume) =
        Except.ok (Option.some p) ∧
      p.isEmpty = false ∧ env.uploader_import_error = Option.none ∧
      env.upload_to_google_drive p (da.folder_id.getD "") (!da.no_skip) =
        Except.error (PyExc.exc m)) →
      ((handle_download env da).2 = Except.ok 1 ∧
       Event.logError ("Upload failed: " ++ m) ∈ (handle_download env da).1)) := by
  refine ⟨?_, ?_, ?_, ?_⟩
  · rintro ⟨h1, h2⟩
    simp [handle_upload, get_uploader, h1, h2]
  · rintro ⟨h1, h2, h3⟩
    simp [handle_upload, get_uploader, h1, h2, h3]
  · rintro ⟨h1, h2, h3, h4, h5⟩
    cases hs : da.destination.startsWith "/content/drive" <;>
      simp [handle_download, get_uploader, h1, h2, h3, h4, h5, hs, strOptFalsy_some]
  · rintro ⟨h1, h2, h3, h4, h5, h6⟩
    cases hs : da.destination.startsWith "/content/drive" <;>
      simp [handle_download, get_uploader, h1, h2, h3, h4, h5, h6, hs, strOptFalsy_some]

/-- Environment where the dynamic uploader import raises `ImportError`. -/
def envImportErr : Env :=
  { envOk with uploader_import_error := Option.some "No module named gdrive_uploader" }

/-- Environment where the upload collaborator raises an exception. -/
def envUploadExc : Env :=
  { envOk with upload_to_google_drive := fun _ _ _ => Except.error (PyExc.exc "quota exceeded") }

theorem upload_exception_contained_witness :
    ((handle_upload envImportErr upArgsOk).2 = Except.ok 1 ∧
     (handle_download envImportErr dlArgsFull).2 = Except.ok 1) ∧
    ((handle_upload envUploadExc upArgsOk).2 = Except.ok 1 ∧
     (handle_download envUploadExc dlArgsFull).2 = Except.ok 1) := by
  have hi := upload_exception_contained envImportErr upArgsOk dlArgsFull
      "/tmp/out/file.iso" "No module named gdrive_uploader"
  have he := upload_exception_contained envUploadExc upArgsOk dlArgsFull
      "/tmp/out/file.iso" "quota exceeded"
  exact ⟨⟨(hi.1 ⟨rfl, rfl⟩).1, (hi.2.2.1 ⟨rfl, rfl, rfl, rfl, rfl⟩).1⟩,
         ⟨(he.2.1 ⟨rfl, rfl, rfl⟩).1, (he.2.2.2 ⟨rfl, rfl, rfl, rfl, rfl, rfl⟩).1⟩⟩

/-- C5: `status` calls the status-query collaborator, prints exactly one
of two fixed messages depending on the returned boolean, and always
returns exit code 0. -/
theorem status_always_exits_zero (env : Env) :
    handle_status env =
      ([Event.callGetStatus,
        Event.print (if env.get_download_status then "✓ Found paused download session"
                     else "✗ No paused download session found")],
       Except.ok 0) := rfl

/-- C6: the `clear` exit code exactly mirrors the clear-session
collaborator boolean — 0 with a success message on `true`, 1 with a
failure message on `false`. -/
theorem clear_mirrors_collaborator_boolean (env : Env) :
    handle_clear env =
      ([Event.callClearSession,
        Event.print (if env.clear_session then "✓ Download session cleared"
                     else "✗ Failed to clear session")],
       Except.ok (if env.clear_session then 0 else 1)) := by
  cases h : env.clear_session <;> simp [handle_clear, h]

/-- C7: `upload` with a local path that does not exist logs
`Path does not exist: <path>` and returns exit code 1, and the upload
collaborator is never invoked. -/
theorem upload_missing_path_fails_before_collaborator
    (env : Env) (a : UploadArgs) (h : env.path_exists a.path = false) :
    (handle_upload env a).2 = Except.ok 1 ∧
    Event.logError ("Path does not exist: " ++ a.path) ∈ (handle_upload env a).1 ∧
    ∀ e ∈ (handle_upload env a).1, e.isCallUpload = false := by
  simp [handle_upload, h, Event.isCallUpload]

/-- Environment in which no local path exists. -/
def envNoPath : Env := { envOk with path_exists := fun _ => false }

/-- Concrete `upload -p /missing/path -f abc123` argument record. -/
def upArgsMissing : UploadArgs :=
  { path := "/missing/path", folder_id := "abc123", no_skip := false }

theorem upload_missing_path_fails_before_collaborator_witness :
    (handle_upload envNoPath upArgsMissing).2 = Except.ok 1 ∧
    Event.logError ("Path does not exist: " ++ upArgsMissing.path) ∈
      (handle_upload envNoPath upArgsMissing).1 ∧
    ∀ e ∈ (handle_upload envNoPath upArgsMissing).1, e.isCallUpload = false :=
  upload_missing_path_fails_before_collaborator envNoPath upArgsMissing rfl

/-- C8: a `KeyboardInterrupt` escaping any dispatched handler is mapped
by `main` to exit code 130 with a friendly cancellation notice and no
diagnostic log, and any other escaping exception is logged with
`exc_info=True` and mapped to exit code 1. -/
theorem main_maps_interrupt_to_130_and_exception_to_1
    (env : Env) (c : Command) (m : String) :
    ((dispatch env c).2 = Except.error PyExc.keyboardInterrupt →
      main env (Option.some c) =
        ((dispatch env c).1 ++ [Event.print "\nOperation cancelled by user"], 130)) ∧
    ((dispatch env c).2 = Except.error (PyExc.exc m) →
      main env (Option.some c) =
        ((dispatch env c).1 ++ [Event.logErrorExcInfo ("Operation failed: " ++ m)], 1)) := by
  constructor <;> intro h <;> simp [main, h]

/-- Environment where the download collaborator raises
`KeyboardInterrupt` (not caught by any handler). -/
def envKb : Env :=
  { envOk with download_torrent := fun _ _ _ => Except.error PyExc.keyboardInterrupt }

/-- Environment where the download collaborator raises an ordinary
exception (caught only by the top-level dispatcher). -/
def envDownExc : Env :=
  { envOk with download_torrent := fun _ _ _ => Except.error (PyExc.exc "disk error") }

/-- Concrete `download` argument record with no upload requested. -/
def dlArgsPlain : DownloadArgs :=
  { torrent := "magnet:?xt=abc", destination := "/tmp/out", no_resume := false,
    upload := false, folder_id := Option.none, no_skip := false }

theorem main_maps_interrupt_to_130_and_exception_to_1_witness :
    (main envKb (Option.some (Command.download dlArgsPlain))).2 = 130 ∧
    (main envDownExc (Option.some (Command.download dlArgsPlain))).2 = 1 := by
  have h1 := main_maps_interrupt_to_130_and_exception_to_1 envKb
      (Command.download dlArgsPlain) "disk error"
  have h2 := main_maps_interrupt_to_130_and_exception_to_1 envDownExc
      (Command.download dlArgsPlain) "disk error"
  exact ⟨by rw [h1.1 rfl], by rw [h2.2 rfl]⟩

/-- C9 counterexample: with a non-existent local path the upload handler
still returns exit code 1, but the Mount Helper HAS been invoked — the
source mounts the drive (line 163) before validating the path
(line 165), so validation is not performed first. -/
theorem upload_mounts_before_path_check_counterexample :
    envNoPath.path_exists upArgsMissing.path = false ∧
    (handle_upload envNoPath upArgsMissing).2 = Except.ok 1 ∧
    Event.mountHelper ∈ (handle_upload envNoPath upArgsMissing).1 := by
  refine ⟨rfl, rfl, ?_⟩
  simp [handle_upload, envNoPath, envOk, upArgsMissing]

/-- C9 (amended): the upload handler invokes the Mount Helper first
(after the banner prints), then validates that the local path exists
(returning exit code 1 on a missing path, the Mount Helper having
already been invoked), then obtains the uploader and calls the upload
collaborator with (path, folder identifier, skip-existing = negation of
the no-skip flag). -/
theorem upload_handler_step_order (env : Env) (a : UploadArgs) :
    (List.take 4 (handle_upload env a).1 =
      [Event.print sepLine, Event.print "GOOGLE DRIVE UPLOADER", Event.print sepLine,
       Event.mountHelper]) ∧
    (env.path_exists a.path = false →
      (handle_upload env a).1 =
        [Event.print sepLine, Event.print "GOOGLE DRIVE UPLOADER", Event.print sepLine,
         Event.mountHelper, Event.logError ("Path does not exist: " ++ a.path)] ∧
      (handle_upload env a).2 = Except.ok 1) ∧
    ((env.path_exists a.path = true ∧ env.uploader_import_error = Option.none) →
      List.take 6 (handle_upload env a).1 =
        [Event.print sepLine, Event.print "GOOGLE DRIVE UPLOADER", Event.print sepLine,
         Event.mountHelper, Event.callGetUploader,
         Event.callUpload a.path a.folder_id (!a.no_skip)]) := by
  cases hp : env.path_exists a.path
  · simp [handle_upload, hp]
  · rcases him : env.uploader_import_error with _ | m
    · rcases hu : env.upload_to_google_drive a.path a.folder_id (!a.no_skip) with e | r
      · rcases e with _ | m2 <;>
          simp [handle_upload, get_uploader, hp, him, hu]
      · cases ht : (UploadResult.getFailed r).truthy <;>
          simp [handle_upload, get_uploader, hp, him, hu, ht]
    · simp [handle_upload, get_uploader, hp, him]

theorem upload_handler_step_order_witness :
    List.take 6 (handle_upload envOk upArgsOk).1 =
      [Event.print sepLine, Event.print "GOOGLE DRIVE UPLOADER", Event.print sepLine,
       Event.mountHelper, Event.callGetUploader,
       Event.callUpload "/tmp/out" "abc123" true] := by
  have h := upload_handler_step_order envOk upArgsOk
  simpa using h.2.2 ⟨rfl, rfl⟩

/-- C10: a result mapping with no `failed` key at all, or whose `failed`
entry is falsy (`None` or the empty list), is treated by both handlers
as complete success — exit code 0 with the success log — because
`results.get('failed')` is a defaulting lookup whose presence is never
enforced. -/
theorem upload_missing_failed_key_is_success
    (env : Env) (ua : UploadArgs) (da : DownloadArgs) (p : String) (r : UploadResult)
    (hr : r.failed = Option.none ∨ r.failed = Option.some PyVal.pyNone ∨
          r.failed = Option.some (PyVal.pyList [])) :
    ((env.path_exists ua.path = true ∧ env.uploader_import_error = Option.none ∧
      env.upload_to_google_drive ua.path ua.folder_id (!ua.no_skip) = Except.ok r) →
      ((handle_upload env ua).2 = Except.ok 0 ∧
        Event.logInfo "Upload completed successfully!" ∈ (handle_upload env ua).1)) ∧
    ((da.upload = true ∧ strOptFalsy da.folder_id = false ∧
      env.download_torrent da.torrent da.destination (!da.no_resume) =
        Except.ok (Option.some p) ∧
      p.isEmpty = false ∧ env.uploader_import_error = Option.none ∧
      env.upload_to_google_drive p (da.folder_id.getD "") (!da.no_skip) = Except.ok r) →
      ((handle_download env da).2 = Except.ok 0 ∧
        Event.logInfo "Upload completed successfully!" ∈ (handle_download env da).1)) := by
  have ht : (UploadResult.getFailed r).truthy = false := by
    rcases hr with h | h | h <;> simp [UploadResult.getFailed, h, PyVal.truthy]
  constructor
  · rintro ⟨h1, h2, h3⟩
    simp [handle_upload, get_uploader, h1, h2, h3, ht]
  · rintro ⟨h1, h2, h3, h4, h5, h6⟩
    cases hs : da.destination.startsWith "/content/drive" <;>
      simp [handle_download, get_uploader, h1, h2, h3, h4, h5, h6, ht, hs, strOptFalsy_some]

/-- Environment whose upload collaborator returns a mapping with no
`failed` key at all. -/
def envNoKey : Env :=
  { envOk with upload_to_google_drive := fun _ _ _ => Except.ok ⟨Option.none⟩ }

theorem upload_missing_failed_key_is_success_witness :
    (handle_upload envNoKey upArgsOk).2 = Except.ok 0 ∧
    (handle_download envNoKey dlArgsFull).2 = Except.ok 0 := by
  have h := upload_missing_failed_key_is_success envNoKey upArgsOk dlArgsFull
      "/tmp/out/file.iso" ⟨Option.none⟩ (Or.inl rfl)
  exact ⟨(h.1 ⟨rfl, rfl, rfl⟩).1, (h.2 ⟨rfl, rfl, rfl, rfl, rfl, rfl⟩).1⟩

end SeedUp
